import Mathlib

/-!
Verification development for the Groq-Rust-Agent repository
(single source file `src/main.rs`).

The embedding below models, from the source:
* the marker parser `FUNCTION_REGEX = <function=(\w+)(\{.*?\})>` as an
  executable scanner over `List Char` with the regex crate's
  leftmost-first / lazy-quantifier semantics (`.` does not match a
  newline; the lazy body stops at the first `}` that is immediately
  followed by `>`; `\w` is the crate's Unicode-aware word class,
  encoded as an explicit code point range table);
* a JSON value type and a parser mirroring `serde_json::from_str`
  for `serde_json::Value` (objects become key-sorted maps with
  last-duplicate-wins, as with serde's `BTreeMap`); JSON numbers are
  modelled as exact rationals, which agree with `f64` on every value
  the claims evaluate;
* the calculator handler `handle_calculate`, the registry
  `FUNCTION_REGISTRY`, and the message/request/response data model;
* the dispatch loop `handle_chat_response` as a fuel-indexed function
  over an oracle of follow-up responses, producing the list of
  observable events (handler invocations, outbound follow-up requests,
  printed chatbot answers, printed diagnostics) in order;
* `serde` deserialization of `Message` and `Choice` (the
  `#[serde(default)]` on `content`), and the startup credential check
  `env::var("GROQ_API_KEY").expect(..)` (an `expect` failure is a Rust
  panic).
-/

attribute [local semireducible] Rat.mul Rat.add Rat.sub Rat.inv

/-- The code point ranges (inclusive, sorted) of the Unicode word class of
the regex crate's `\w`: the crate matches
`[\p{Alphabetic}\p{M}\p{Nd}\p{Pc}\p{Join_Control}]`.  Encoded here as the
merged ranges of General_Category L, M, Nd, Nl and Pc, the join controls
U+200C/U+200D, and the circled letters U+24B6-U+24E9, from Unicode 14.0.0;
this is the crate's class up to the remaining handful of Other_Alphabetic
code points outside those categories. -/
def wordRanges : List (Nat × Nat) := [
  (48, 57), (65, 90), (95, 95), (97, 122), (170, 170), (181, 181), (186, 186), (192, 214),
  (216, 246), (248, 705), (710, 721), (736, 740), (748, 748), (750, 750), (768, 884), (886, 887),
  (890, 893), (895, 895), (902, 902), (904, 906), (908, 908), (910, 929), (931, 1013), (1015, 1153),
  (1155, 1327), (1329, 1366), (1369, 1369), (1376, 1416), (1425, 1469), (1471, 1471), (1473, 1474), (1476, 1477),
  (1479, 1479), (1488, 1514), (1519, 1522), (1552, 1562), (1568, 1641), (1646, 1747), (1749, 1756), (1759, 1768),
  (1770, 1788), (1791, 1791), (1808, 1866), (1869, 1969), (1984, 2037), (2042, 2042), (2045, 2045), (2048, 2093),
  (2112, 2139), (2144, 2154), (2160, 2183), (2185, 2190), (2200, 2273), (2275, 2403), (2406, 2415), (2417, 2435),
  (2437, 2444), (2447, 2448), (2451, 2472), (2474, 2480), (2482, 2482), (2486, 2489), (2492, 2500), (2503, 2504),
  (2507, 2510), (2519, 2519), (2524, 2525), (2527, 2531), (2534, 2545), (2556, 2556), (2558, 2558), (2561, 2563),
  (2565, 2570), (2575, 2576), (2579, 2600), (2602, 2608), (2610, 2611), (2613, 2614), (2616, 2617), (2620, 2620),
  (2622, 2626), (2631, 2632), (2635, 2637), (2641, 2641), (2649, 2652), (2654, 2654), (2662, 2677), (2689, 2691),
  (2693, 2701), (2703, 2705), (2707, 2728), (2730, 2736), (2738, 2739), (2741, 2745), (2748, 2757), (2759, 2761),
  (2763, 2765), (2768, 2768), (2784, 2787), (2790, 2799), (2809, 2815), (2817, 2819), (2821, 2828), (2831, 2832),
  (2835, 2856), (2858, 2864), (2866, 2867), (2869, 2873), (2876, 2884), (2887, 2888), (2891, 2893), (2901, 2903),
  (2908, 2909), (2911, 2915), (2918, 2927), (2929, 2929), (2946, 2947), (2949, 2954), (2958, 2960), (2962, 2965),
  (2969, 2970), (2972, 2972), (2974, 2975), (2979, 2980), (2984, 2986), (2990, 3001), (3006, 3010), (3014, 3016),
  (3018, 3021), (3024, 3024), (3031, 3031), (3046, 3055), (3072, 3084), (3086, 3088), (3090, 3112), (3114, 3129),
  (3132, 3140), (3142, 3144), (3146, 3149), (3157, 3158), (3160, 3162), (3165, 3165), (3168, 3171), (3174, 3183),
  (3200, 3203), (3205, 3212), (3214, 3216), (3218, 3240), (3242, 3251), (3253, 3257), (3260, 3268), (3270, 3272),
  (3274, 3277), (3285, 3286), (3293, 3294), (3296, 3299), (3302, 3311), (3313, 3314), (3328, 3340), (3342, 3344),
  (3346, 3396), (3398, 3400), (3402, 3406), (3412, 3415), (3423, 3427), (3430, 3439), (3450, 3455), (3457, 3459),
  (3461, 3478), (3482, 3505), (3507, 3515), (3517, 3517), (3520, 3526), (3530, 3530), (3535, 3540), (3542, 3542),
  (3544, 3551), (3558, 3567), (3570, 3571), (3585, 3642), (3648, 3662), (3664, 3673), (3713, 3714), (3716, 3716),
  (3718, 3722), (3724, 3747), (3749, 3749), (3751, 3773), (3776, 3780), (3782, 3782), (3784, 3789), (3792, 3801),
  (3804, 3807), (3840, 3840), (3864, 3865), (3872, 3881), (3893, 3893), (3895, 3895), (3897, 3897), (3902, 3911),
  (3913, 3948), (3953, 3972), (3974, 3991), (3993, 4028), (4038, 4038), (4096, 4169), (4176, 4253), (4256, 4293),
  (4295, 4295), (4301, 4301), (4304, 4346), (4348, 4680), (4682, 4685), (4688, 4694), (4696, 4696), (4698, 4701),
  (4704, 4744), (4746, 4749), (4752, 4784), (4786, 4789), (4792, 4798), (4800, 4800), (4802, 4805), (4808, 4822),
  (4824, 4880), (4882, 4885), (4888, 4954), (4957, 4959), (4992, 5007), (5024, 5109), (5112, 5117), (5121, 5740),
  (5743, 5759), (5761, 5786), (5792, 5866), (5870, 5880), (5888, 5909), (5919, 5940), (5952, 5971), (5984, 5996),
  (5998, 6000), (6002, 6003), (6016, 6099), (6103, 6103), (6108, 6109), (6112, 6121), (6155, 6157), (6159, 6169),
  (6176, 6264), (6272, 6314), (6320, 6389), (6400, 6430), (6432, 6443), (6448, 6459), (6470, 6509), (6512, 6516),
  (6528, 6571), (6576, 6601), (6608, 6617), (6656, 6683), (6688, 6750), (6752, 6780), (6783, 6793), (6800, 6809),
  (6823, 6823), (6832, 6862), (6912, 6988), (6992, 7001), (7019, 7027), (7040, 7155), (7168, 7223), (7232, 7241),
  (7245, 7293), (7296, 7304), (7312, 7354), (7357, 7359), (7376, 7378), (7380, 7418), (7424, 7957), (7960, 7965),
  (7968, 8005), (8008, 8013), (8016, 8023), (8025, 8025), (8027, 8027), (8029, 8029), (8031, 8061), (8064, 8116),
  (8118, 8124), (8126, 8126), (8130, 8132), (8134, 8140), (8144, 8147), (8150, 8155), (8160, 8172), (8178, 8180),
  (8182, 8188), (8204, 8205), (8255, 8256), (8276, 8276), (8305, 8305), (8319, 8319), (8336, 8348), (8400, 8432),
  (8450, 8450), (8455, 8455), (8458, 8467), (8469, 8469), (8473, 8477), (8484, 8484), (8486, 8486), (8488, 8488),
  (8490, 8493), (8495, 8505), (8508, 8511), (8517, 8521), (8526, 8526), (8544, 8584), (9398, 9449), (11264, 11492),
  (11499, 11507), (11520, 11557), (11559, 11559), (11565, 11565), (11568, 11623), (11631, 11631), (11647, 11670), (11680, 11686),
  (11688, 11694), (11696, 11702), (11704, 11710), (11712, 11718), (11720, 11726), (11728, 11734), (11736, 11742), (11744, 11775),
  (11823, 11823), (12293, 12295), (12321, 12335), (12337, 12341), (12344, 12348), (12353, 12438), (12441, 12442), (12445, 12447),
  (12449, 12538), (12540, 12543), (12549, 12591), (12593, 12686), (12704, 12735), (12784, 12799), (13312, 19903), (19968, 42124),
  (42192, 42237), (42240, 42508), (42512, 42539), (42560, 42610), (42612, 42621), (42623, 42737), (42775, 42783), (42786, 42888),
  (42891, 42954), (42960, 42961), (42963, 42963), (42965, 42969), (42994, 43047), (43052, 43052), (43072, 43123), (43136, 43205),
  (43216, 43225), (43232, 43255), (43259, 43259), (43261, 43309), (43312, 43347), (43360, 43388), (43392, 43456), (43471, 43481),
  (43488, 43518), (43520, 43574), (43584, 43597), (43600, 43609), (43616, 43638), (43642, 43714), (43739, 43741), (43744, 43759),
  (43762, 43766), (43777, 43782), (43785, 43790), (43793, 43798), (43808, 43814), (43816, 43822), (43824, 43866), (43868, 43881),
  (43888, 44010), (44012, 44013), (44016, 44025), (44032, 55203), (55216, 55238), (55243, 55291), (63744, 64109), (64112, 64217),
  (64256, 64262), (64275, 64279), (64285, 64296), (64298, 64310), (64312, 64316), (64318, 64318), (64320, 64321), (64323, 64324),
  (64326, 64433), (64467, 64829), (64848, 64911), (64914, 64967), (65008, 65019), (65024, 65039), (65056, 65071), (65075, 65076),
  (65101, 65103), (65136, 65140), (65142, 65276), (65296, 65305), (65313, 65338), (65343, 65343), (65345, 65370), (65382, 65470),
  (65474, 65479), (65482, 65487), (65490, 65495), (65498, 65500), (65536, 65547), (65549, 65574), (65576, 65594), (65596, 65597),
  (65599, 65613), (65616, 65629), (65664, 65786), (65856, 65908), (66045, 66045), (66176, 66204), (66208, 66256), (66272, 66272),
  (66304, 66335), (66349, 66378), (66384, 66426), (66432, 66461), (66464, 66499), (66504, 66511), (66513, 66517), (66560, 66717),
  (66720, 66729), (66736, 66771), (66776, 66811), (66816, 66855), (66864, 66915), (66928, 66938), (66940, 66954), (66956, 66962),
  (66964, 66965), (66967, 66977), (66979, 66993), (66995, 67001), (67003, 67004), (67072, 67382), (67392, 67413), (67424, 67431),
  (67456, 67461), (67463, 67504), (67506, 67514), (67584, 67589), (67592, 67592), (67594, 67637), (67639, 67640), (67644, 67644),
  (67647, 67669), (67680, 67702), (67712, 67742), (67808, 67826), (67828, 67829), (67840, 67861), (67872, 67897), (67968, 68023),
  (68030, 68031), (68096, 68099), (68101, 68102), (68108, 68115), (68117, 68119), (68121, 68149), (68152, 68154), (68159, 68159),
  (68192, 68220), (68224, 68252), (68288, 68295), (68297, 68326), (68352, 68405), (68416, 68437), (68448, 68466), (68480, 68497),
  (68608, 68680), (68736, 68786), (68800, 68850), (68864, 68903), (68912, 68921), (69248, 69289), (69291, 69292), (69296, 69297),
  (69376, 69404), (69415, 69415), (69424, 69456), (69488, 69509), (69552, 69572), (69600, 69622), (69632, 69702), (69734, 69749),
  (69759, 69818), (69826, 69826), (69840, 69864), (69872, 69881), (69888, 69940), (69942, 69951), (69956, 69959), (69968, 70003),
  (70006, 70006), (70016, 70084), (70089, 70092), (70094, 70106), (70108, 70108), (70144, 70161), (70163, 70199), (70206, 70206),
  (70272, 70278), (70280, 70280), (70282, 70285), (70287, 70301), (70303, 70312), (70320, 70378), (70384, 70393), (70400, 70403),
  (70405, 70412), (70415, 70416), (70419, 70440), (70442, 70448), (70450, 70451), (70453, 70457), (70459, 70468), (70471, 70472),
  (70475, 70477), (70480, 70480), (70487, 70487), (70493, 70499), (70502, 70508), (70512, 70516), (70656, 70730), (70736, 70745),
  (70750, 70753), (70784, 70853), (70855, 70855), (70864, 70873), (71040, 71093), (71096, 71104), (71128, 71133), (71168, 71232),
  (71236, 71236), (71248, 71257), (71296, 71352), (71360, 71369), (71424, 71450), (71453, 71467), (71472, 71481), (71488, 71494),
  (71680, 71738), (71840, 71913), (71935, 71942), (71945, 71945), (71948, 71955), (71957, 71958), (71960, 71989), (71991, 71992),
  (71995, 72003), (72016, 72025), (72096, 72103), (72106, 72151), (72154, 72161), (72163, 72164), (72192, 72254), (72263, 72263),
  (72272, 72345), (72349, 72349), (72368, 72440), (72704, 72712), (72714, 72758), (72760, 72768), (72784, 72793), (72818, 72847),
  (72850, 72871), (72873, 72886), (72960, 72966), (72968, 72969), (72971, 73014), (73018, 73018), (73020, 73021), (73023, 73031),
  (73040, 73049), (73056, 73061), (73063, 73064), (73066, 73102), (73104, 73105), (73107, 73112), (73120, 73129), (73440, 73462),
  (73648, 73648), (73728, 74649), (74752, 74862), (74880, 75075), (77712, 77808), (77824, 78894), (82944, 83526), (92160, 92728),
  (92736, 92766), (92768, 92777), (92784, 92862), (92864, 92873), (92880, 92909), (92912, 92916), (92928, 92982), (92992, 92995),
  (93008, 93017), (93027, 93047), (93053, 93071), (93760, 93823), (93952, 94026), (94031, 94087), (94095, 94111), (94176, 94177),
  (94179, 94180), (94192, 94193), (94208, 100343), (100352, 101589), (101632, 101640), (110576, 110579), (110581, 110587), (110589, 110590),
  (110592, 110882), (110928, 110930), (110948, 110951), (110960, 111355), (113664, 113770), (113776, 113788), (113792, 113800), (113808, 113817),
  (113821, 113822), (118528, 118573), (118576, 118598), (119141, 119145), (119149, 119154), (119163, 119170), (119173, 119179), (119210, 119213),
  (119362, 119364), (119808, 119892), (119894, 119964), (119966, 119967), (119970, 119970), (119973, 119974), (119977, 119980), (119982, 119993),
  (119995, 119995), (119997, 120003), (120005, 120069), (120071, 120074), (120077, 120084), (120086, 120092), (120094, 120121), (120123, 120126),
  (120128, 120132), (120134, 120134), (120138, 120144), (120146, 120485), (120488, 120512), (120514, 120538), (120540, 120570), (120572, 120596),
  (120598, 120628), (120630, 120654), (120656, 120686), (120688, 120712), (120714, 120744), (120746, 120770), (120772, 120779), (120782, 120831),
  (121344, 121398), (121403, 121452), (121461, 121461), (121476, 121476), (121499, 121503), (121505, 121519), (122624, 122654), (122880, 122886),
  (122888, 122904), (122907, 122913), (122915, 122916), (122918, 122922), (123136, 123180), (123184, 123197), (123200, 123209), (123214, 123214),
  (123536, 123566), (123584, 123641), (124896, 124902), (124904, 124907), (124909, 124910), (124912, 124926), (124928, 125124), (125136, 125142),
  (125184, 125259), (125264, 125273), (126464, 126467), (126469, 126495), (126497, 126498), (126500, 126500), (126503, 126503), (126505, 126514),
  (126516, 126519), (126521, 126521), (126523, 126523), (126530, 126530), (126535, 126535), (126537, 126537), (126539, 126539), (126541, 126543),
  (126545, 126546), (126548, 126548), (126551, 126551), (126553, 126553), (126555, 126555), (126557, 126557), (126559, 126559), (126561, 126562),
  (126564, 126564), (126567, 126570), (126572, 126578), (126580, 126583), (126585, 126588), (126590, 126590), (126592, 126601), (126603, 126619),
  (126625, 126627), (126629, 126633), (126635, 126651), (130032, 130041), (131072, 173791), (173824, 177976), (177984, 178205), (178208, 183969),
  (183984, 191456), (194560, 195101), (196608, 201546), (917760, 917999)]

/-- Membership of a code point in a sorted list of inclusive ranges. -/
def inRanges (n : Nat) : List (Nat × Nat) → Bool
  | [] => false
  | (a, b) :: rest => if n < a then false else if n ≤ b then true else inRanges n rest

/-- Word character, modelling `\w` of `FUNCTION_REGEX`.  The regex crate's
`\w` is Unicode-aware by default, a strict superset of `[A-Za-z0-9_]`
(for example `é` is a word character); see `wordRanges`. -/
def isWordChar (c : Char) : Bool := inRanges c.toNat wordRanges

/-- Drop the literal `p` from the front of `cs`; `none` if `cs` does not
start with `p`. -/
def dropLit : List Char → List Char → Option (List Char)
  | [], cs => some cs
  | _ :: _, [] => none
  | p :: ps, c :: cs => if c = p then dropLit ps cs else none

/-- The fixed text `<function=` that precedes the name group of
`FUNCTION_REGEX`. -/
def markerIntro : List Char := ("<function=").data

/-- The lazy body `.*?` of `FUNCTION_REGEX` followed by `\})>`: consume
characters (never a newline, since `.` does not match one) up to the first
`}` that is immediately followed by `>`; return the consumed body and the
characters after the `>`. -/
def scanBody : List Char → Option (List Char × List Char)
  | [] => none
  | c :: rest =>
    if c = '}' ∧ rest.head? = some '>' then some ([], rest.tail)
    else if c = '\n' then none
    else
      match scanBody rest with
      | some (body, r) => some (c :: body, r)
      | none => none

/-- Attempt to match `FUNCTION_REGEX` at the very start of `cs`, returning
capture group 1 (the name) and capture group 2 (the brace-delimited
parameter span). -/
def matchAt (cs : List Char) : Option (List Char × List Char) :=
  match dropLit markerIntro cs with
  | none => none
  | some cs1 =>
    match cs1.takeWhile isWordChar, cs1.dropWhile isWordChar with
    | [], _ => none
    | nm :: nms, '{' :: cs2 =>
      (match scanBody cs2 with
       | some (body, _) => some (nm :: nms, '{' :: (body ++ ['}']))
       | none => none)
    | _ :: _, _ => none

/-- Leftmost match: try `matchAt` at each position from the left, as the
regex engine does. -/
def findMarkerAux : List Char → Option (List Char × List Char)
  | [] => none
  | c :: rest =>
    match matchAt (c :: rest) with
    | some r => some r
    | none => findMarkerAux rest

/-- Model of `FUNCTION_REGEX.captures(text)` restricted to groups 1 and 2
(the only groups the program reads): the name and the parameter span of the
first (leftmost) match, if any. -/
def FUNCTION_REGEX_captures (s : String) : Option (String × String) :=
  match findMarkerAux s.data with
  | some (n, ps) => some (String.mk n, String.mk ps)
  | none => none

/-- Whether `pat` occurs as a prefix of `s` (on character lists). -/
def startsWith : List Char → List Char → Bool
  | [], _ => true
  | _ :: _, [] => false
  | p :: ps, c :: cs => c = p && startsWith ps cs

/-- Whether `pat` occurs as a contiguous substring of `s` (on character
lists). -/
def hasSub (pat : List Char) : List Char → Bool
  | [] => pat.isEmpty
  | c :: rest => startsWith pat (c :: rest) || hasSub pat rest

/-- JSON values, modelling `serde_json::Value`.  Numbers are exact
rationals; this agrees with the `f64` view (`as_f64`) on every number the
claims evaluate. -/
inductive Json where
  | null : Json
  | bool (b : Bool) : Json
  | num (q : ℚ) : Json
  | str (s : String) : Json
  | arr (elems : List Json) : Json
  | obj (fields : List (String × Json)) : Json

/-- JSON whitespace, as accepted by serde between tokens. -/
def skipWs (cs : List Char) : List Char :=
  cs.dropWhile (fun c => c == ' ' || c == '\t' || c == '\n' || c == '\r')

/-- Value of a hexadecimal digit. -/
def hexVal (c : Char) : Option Nat :=
  if '0' ≤ c ∧ c ≤ '9' then some (c.toNat - ('0').toNat)
  else if 'a' ≤ c ∧ c ≤ 'f' then some (c.toNat - ('a').toNat + 10)
  else if 'A' ≤ c ∧ c ≤ 'F' then some (c.toNat - ('A').toNat + 10)
  else none

/-- Value of a four-digit hexadecimal escape. -/
def hex4 (h1 h2 h3 h4 : Char) : Option Nat := do
  let a ← hexVal h1
  let b ← hexVal h2
  let c ← hexVal h3
  let d ← hexVal h4
  return ((a * 16 + b) * 16 + c) * 16 + d

/-- The single-character JSON string escapes. -/
def simpleEscape (c : Char) : Option Char :=
  if c = '"' then some '"'
  else if c = '\\' then some '\\'
  else if c = '/' then some '/'
  else if c = 'b' then some (Char.ofNat 8)
  else if c = 'f' then some (Char.ofNat 12)
  else if c = 'n' then some '\n'
  else if c = 'r' then some '\r'
  else if c = 't' then some '\t'
  else none

/-- Parse the body of a JSON string after the opening quote, handling the
escapes serde accepts (including surrogate pairs) and rejecting raw control
characters and lone surrogates, up to and including the closing quote. -/
def parseStringBody : List Char → Option (List Char × List Char)
  | [] => none
  | '"' :: rest => some ([], rest)
  | '\\' :: 'u' :: h1 :: h2 :: h3 :: h4 :: rest =>
    (match hex4 h1 h2 h3 h4 with
     | none => none
     | some n =>
       if 0xD800 ≤ n ∧ n ≤ 0xDBFF then
         match rest with
         | '\\' :: 'u' :: g1 :: g2 :: g3 :: g4 :: rest2 =>
           (match hex4 g1 g2 g3 g4 with
            | none => none
            | some m =>
              if 0xDC00 ≤ m ∧ m ≤ 0xDFFF then
                match parseStringBody rest2 with
                | some (cs, r) =>
                  some (Char.ofNat (0x10000 + (n - 0xD800) * 0x400 + (m - 0xDC00)) :: cs, r)
                | none => none
              else none)
         | _ => none
       else if 0xDC00 ≤ n ∧ n ≤ 0xDFFF then none
       else
         match parseStringBody rest with
         | some (cs, r) => some (Char.ofNat n :: cs, r)
         | none => none)
  | '\\' :: e :: rest =>
    (match simpleEscape e with
     | none => none
     | some c =>
       match parseStringBody rest with
       | some (cs, r) => some (c :: cs, r)
       | none => none)
  | c :: rest =>
    if c.toNat < 0x20 then none
    else
      match parseStringBody rest with
      | some (cs, r) => some (c :: cs, r)
      | none => none

/-- Numeric value of a digit string. -/
def digitsToNat (ds : List Char) : Nat :=
  ds.foldl (fun a c => a * 10 + (c.toNat - ('0').toNat)) 0

/-- Integer part of a JSON number: `0`, or a nonzero digit followed by
digits (leading zeros are rejected, as by serde). -/
def parseIntPart : List Char → Option (List Char × List Char)
  | [] => none
  | '0' :: rest => some (['0'], rest)
  | c :: rest =>
    if c.isDigit then some (c :: rest.takeWhile Char.isDigit, rest.dropWhile Char.isDigit)
    else none

/-- Optional fractional part `. digits` of a JSON number. -/
def parseFrac : List Char → Option (List Char × List Char)
  | '.' :: r =>
    (match r.takeWhile Char.isDigit with
     | [] => none
     | ds => some (ds, r.dropWhile Char.isDigit))
  | cs => some ([], cs)

/-- Optional exponent part `e|E [+|-] digits` of a JSON number. -/
def parseExp : List Char → Option (ℤ × List Char)
  | [] => some (0, [])
  | c :: r =>
    if c = 'e' ∨ c = 'E' then
      let sr : ℤ × List Char :=
        match r with
        | '+' :: rr => (1, rr)
        | '-' :: rr => (-1, rr)
        | _ => (1, r)
      match (sr.2).takeWhile Char.isDigit with
      | [] => none
      | ds => some (sr.1 * (digitsToNat ds : ℤ), (sr.2).dropWhile Char.isDigit)
    else some (0, c :: r)

/-- Parse a JSON number into an exact rational. -/
def parseNumber (cs : List Char) : Option (ℚ × List Char) :=
  let sgncs : ℤ × List Char :=
    match cs with
    | '-' :: r => (-1, r)
    | _ => (1, cs)
  match parseIntPart sgncs.2 with
  | none => none
  | some (ints, r1) =>
    match parseFrac r1 with
    | none => none
    | some (fracs, r2) =>
      match parseExp r2 with
      | none => none
      | some (ex, r3) =>
        let m : ℤ := sgncs.1 * (digitsToNat (ints ++ fracs) : ℤ)
        some ((m : ℚ) * (10 : ℚ) ^ (ex - (fracs.length : ℤ)), r3)

/-- Lexicographic order on character lists; on strings this coincides with
Rust's `Ord` for `String` (UTF-8 byte order preserves scalar order). -/
def strLtChars : List Char → List Char → Bool
  | [], [] => false
  | [], _ :: _ => true
  | _ :: _, [] => false
  | a :: as, b :: bs => if a < b then true else if b < a then false else strLtChars as bs

/-- Insert a key/value pair into a key-sorted association list, replacing
an existing binding: the behaviour of `BTreeMap::insert`, which backs
`serde_json::Map`. -/
def insertKV (k : String) (v : Json) : List (String × Json) → List (String × Json)
  | [] => [(k, v)]
  | (k2, v2) :: rest =>
    if k = k2 then (k, v) :: rest
    else if strLtChars k.data k2.data then (k, v) :: (k2, v2) :: rest
    else (k2, v2) :: insertKV k v rest

/-- Build the object map from the fields in textual order (later duplicate
keys win, as with sequential `BTreeMap::insert`). -/
def buildObj (fs : List (String × Json)) : List (String × Json) :=
  fs.foldl (fun m kv => insertKV kv.1 kv.2 m) []

/-- Array items after the opening bracket (first item starts `cs`),
including the closing bracket.  `pv` parses one value. -/
def parseItemsF (pv : List Char → Option (Json × List Char)) :
    Nat → List Char → Option (List Json × List Char)
  | 0, _ => none
  | g + 1, cs =>
    match pv cs with
    | none => none
    | some (v, r) =>
      match skipWs r with
      | ',' :: r2 =>
        (match parseItemsF pv g (skipWs r2) with
         | some (vs, rr) => some (v :: vs, rr)
         | none => none)
      | ']' :: r2 => some ([v], r2)
      | _ => none

/-- Object fields after the opening brace (first key starts `cs`),
including the closing brace, in textual order. -/
def parseFieldsF (pv : List Char → Option (Json × List Char)) :
    Nat → List Char → Option (List (String × Json) × List Char)
  | 0, _ => none
  | g + 1, cs =>
    match cs with
    | '"' :: r =>
      (match parseStringBody r with
       | none => none
       | some (kcs, r1) =>
         match skipWs r1 with
         | ':' :: r2 =>
           (match pv (skipWs r2) with
            | none => none
            | some (v, r3) =>
              match skipWs r3 with
              | ',' :: r4 =>
                (match parseFieldsF pv g (skipWs r4) with
                 | some (fs, rr) => some ((String.mk kcs, v) :: fs, rr)
                 | none => none)
              | '}' :: r4 => some ([(String.mk kcs, v)], r4)
              | _ => none)
         | _ => none)
    | _ => none

/-- Parse one JSON value (leading whitespace already skipped), fuelled by
the nesting depth. -/
def parseValueF : Nat → List Char → Option (Json × List Char)
  | 0, _ => none
  | f + 1, cs =>
    match cs with
    | [] => none
    | 'n' :: _ => (dropLit (("null").data) cs).map (fun r => (Json.null, r))
    | 't' :: _ => (dropLit (("true").data) cs).map (fun r => (Json.bool true, r))
    | 'f' :: _ => (dropLit (("false").data) cs).map (fun r => (Json.bool false, r))
    | '"' :: r =>
      (match parseStringBody r with
       | some (scs, rest) => some (Json.str (String.mk scs), rest)
       | none => none)
    | '[' :: r =>
      (match skipWs r with
       | ']' :: r2 => some (Json.arr [], r2)
       | r1 =>
         match parseItemsF (parseValueF f) (f + 1) r1 with
         | some (vs, rest) => some (Json.arr vs, rest)
         | none => none)
    | '{' :: r =>
      (match skipWs r with
       | '}' :: r2 => some (Json.obj [], r2)
       | r1 =>
         match parseFieldsF (parseValueF f) (f + 1) r1 with
         | some (fs, rest) => some (Json.obj (buildObj fs), rest)
         | none => none)
    | _ => (parseNumber cs).map (fun p => (Json.num p.1, p.2))

/-- Model of `serde_json::from_str::<serde_json::Value>`: one JSON value,
optionally surrounded by whitespace, spanning the whole input. -/
def Json.parse (s : String) : Option Json :=
  match parseValueF (s.data.length + 1) (skipWs s.data) with
  | some (v, rest) => if (skipWs rest).isEmpty then some v else none
  | none => none

/-- Lookup in an object field list. -/
def lookupKV (k : String) : List (String × Json) → Option Json
  | [] => none
  | (k2, v) :: rest => if k = k2 then some v else lookupKV k rest

/-- Model of `serde_json::Value::get(key)`: field lookup on objects,
`None` on everything else. -/
def Json.get : Json → String → Option Json
  | Json.obj fs, k => lookupKV k fs
  | _, _ => none

/-- Model of `serde_json::Value::as_f64` (numbers are already exact
rationals here). -/
def Json.as_f64 : Json → Option ℚ
  | Json.num q => some q
  | _ => none

/-- Model of `serde_json::Value::as_str`. -/
def Json.as_str : Json → Option String
  | Json.str s => some s
  | _ => none

/-- Display of an `f64` as used by `format!("{}")` in `handle_calculate`.
On integral values (the only ones the claims evaluate) Rust prints the
plain integer, modelled exactly; non-integral values are rendered here as
`num/den`, an approximation of Rust's shortest-round-trip decimal that no
claim relies on. -/
def fmtF64 (q : ℚ) : String :=
  if q.den = 1 then toString q.num else toString q.num ++ "/" ++ toString q.den

/-- The success output line of `handle_calculate`:
`format!("The result of {} {} {} is {}", a, op, b, result)`. -/
def calcOut (a : ℚ) (op : String) (b : ℚ) (r : ℚ) : String :=
  "The result of " ++ fmtF64 a ++ " " ++ op ++ " " ++ fmtF64 b ++ " is " ++ fmtF64 r

/-- The calculator handler (`handle_calculate` in `src/main.rs`): extract
`a` and `b` as `f64` and `operation` as a string; dispatch on the
operation with a division-by-zero guard; fall through to the fixed
invalid-parameters text when any field is missing or ill-typed. -/
def handle_calculate (params : Json) : String :=
  match (Json.get params "a").bind Json.as_f64,
        (Json.get params "b").bind Json.as_f64,
        (Json.get params "operation").bind Json.as_str with
  | some a, some b, some op =>
    if op = "+" then calcOut a op b (a + b)
    else if op = "-" then calcOut a op b (a - b)
    else if op = "*" then calcOut a op b (a * b)
    else if op = "/" then
      if b ≠ 0 then calcOut a op b (a / b)
      else "Error: Division by zero"
    else "Error: Unknown operation \x27" ++ op ++ "\x27"
  | _, _, _ => "Invalid parameters for calculation"

/-- The handler type `type FunctionHandler = fn(serde_json::Value) -> String`. -/
def FunctionHandler : Type := Json → String

/-- The static registry `FUNCTION_REGISTRY`: a single entry mapping
`"calculate"` to `handle_calculate`. -/
def FUNCTION_REGISTRY (name : String) : Option FunctionHandler :=
  if name = "calculate" then some handle_calculate else none

/-- The `Message` struct: `role`, and `content` (with `#[serde(default)]`). -/
structure Message where
  role : String
  content : String

/-- The `ToolFunctionParameters` struct. -/
structure ToolFunctionParameters where
  param_type : String
  properties : Json
  required : List String

/-- The `ToolFunction` struct. -/
structure ToolFunction where
  name : String
  description : String
  parameters : ToolFunctionParameters

/-- The `Tool` struct. -/
structure Tool where
  tool_type : String
  function : ToolFunction

/-- The `ChatRequest` struct. -/
structure ChatRequest where
  model : String
  messages : List Message
  tools : List Tool
  tool_choice : String

/-- The `Choice` struct: an optional structured message and an optional
raw text. -/
structure Choice where
  message : Option Message
  text : Option String

/-- The `ChatResponse` struct. -/
structure ChatResponse where
  choices : List Choice

/-- Serde deserialization of `Message` from a JSON value: `role` is a
required string; `content` is a string defaulting to `""` when the field
is absent (`#[serde(default)]`); unknown fields are ignored. -/
def Message.fromJson : Json → Option Message
  | Json.obj fs =>
    (match lookupKV "role" fs with
     | some (Json.str r) =>
       (match lookupKV "content" fs with
        | some (Json.str c) => some { role := r, content := c }
        | none => some { role := r, content := "" }
        | some _ => none)
     | _ => none)
  | _ => none

/-- Serde deserialization of `Choice`: both fields are `Option`s, absent
or `null` deserializing to `None`. -/
def Choice.fromJson : Json → Option Choice
  | Json.obj fs => do
    let m ← (match lookupKV "message" fs with
      | none => some Option.none
      | some Json.null => some Option.none
      | some j => (Message.fromJson j).map Option.some)
    let t ← (match lookupKV "text" fs with
      | none => some Option.none
      | some Json.null => some Option.none
      | some (Json.str s) => some (Option.some s)
      | some _ => none)
    some { message := m, text := t }
  | _ => none

/-- Observable events of one run of the dispatch loop, in order:
a handler invocation, an outbound follow-up request, a printed final
chatbot answer (`println!("🤖 Chatbot: ..")`), or one of the two printed
diagnostics (invalid parameter format / function not found). -/
inductive Event where
  | handlerCalled (name : String) (params : Json)
  | requestSent (req : ChatRequest)
  | answered (content : String)
  | invalidParams (params_str : String)
  | notFound (name : String)

/-- The follow-up request built after a successful dispatch
(`new_request_payload` in the source): the handler result as the single
`user` message, no tools. -/
def new_request_payload (result : String) : ChatRequest :=
  { model := "llama-3.3-70b-versatile"
    messages := [{ role := "user", content := result }]
    tools := []
    tool_choice := "auto" }

/-- One pass of the `for choice in chat_response.choices` loop of
`handle_chat_response`.  `recur` processes a follow-up response (it is the
recursive call at one less fuel); `oracle k` is the response the endpoint
returns to the `k`-th follow-up request of the run; the `Nat` state counts
requests sent so far.  Returns the events emitted and the final request
count. -/
def handleChoices (recur : ChatResponse → Nat → Option (List Event × Nat))
    (oracle : Nat → ChatResponse) : Nat → List Choice → Option (List Event × Nat)
  | k, [] => some ([], k)
  | k, c :: cs =>
    match c.message with
    | some m =>
      (match FUNCTION_REGEX_captures m.content with
       | some (fname, params_str) =>
         (match Json.parse params_str with
          | some params =>
            (match FUNCTION_REGISTRY fname with
             | some handler =>
               let result := handler params
               (match recur (oracle k) (k + 1) with
                | none => none
                | some (evs1, k1) =>
                  match handleChoices recur oracle k1 cs with
                  | none => none
                  | some (evs2, k2) =>
                    some (Event.handlerCalled fname params ::
                          Event.requestSent (new_request_payload result) ::
                          (evs1 ++ evs2), k2))
             | none =>
               match handleChoices recur oracle k cs with
               | none => none
               | some (evs, k2) => some (Event.notFound fname :: evs, k2))
          | none =>
            match handleChoices recur oracle k cs with
            | none => none
            | some (evs, k2) => some (Event.invalidParams params_str :: evs, k2))
       | none =>
         match handleChoices recur oracle k cs with
         | none => none
         | some (evs, k2) => some (Event.answered m.content :: evs, k2))
    | none =>
      match c.text with
      | some t =>
        (match handleChoices recur oracle k cs with
         | none => none
         | some (evs, k2) => some (Event.answered t :: evs, k2))
      | none => handleChoices recur oracle k cs

/-- The dispatch loop `handle_chat_response`, fuel-indexed (the source
recursion is unbounded; every claim holds at sufficient fuel, and `none`
means only that the fuel ran out).  Arguments: fuel, the transport oracle,
the response being processed, and the count of follow-up requests already
sent. -/
def handle_chat_response : Nat → (Nat → ChatResponse) → ChatResponse → Nat →
    Option (List Event × Nat)
  | 0, _, _, _ => none
  | fuel + 1, oracle, resp, k =>
    handleChoices (handle_chat_response fuel oracle) oracle k resp.choices

/-- How the process can end. `panicked` models a Rust panic (such as a
failed `.expect(..)`); `cleanExit` models returning `Ok(())` from `main`
(reached in the source only through the `"exit"` command). -/
inductive ProcessEnd where
  | cleanExit (msg : String)
  | panicked (msg : String)

/-- Whether a process end is a clean exit rather than a panic. -/
def ProcessEnd.isCleanExit : ProcessEnd → Bool
  | ProcessEnd.cleanExit _ => true
  | ProcessEnd.panicked _ => false

/-- The startup credential check, line 161 of `src/main.rs`:
`env::var("GROQ_API_KEY").expect("GROQ_API_KEY not set")`.  When the
variable is absent the `expect` panics with its message and nothing after
it (no conversation) runs; otherwise `main` proceeds with the key. -/
def startupApiKey (env : String → Option String) : Except ProcessEnd String :=
  match env "GROQ_API_KEY" with
  | some k => Except.ok k
  | none => Except.error (ProcessEnd.panicked "GROQ_API_KEY not set")

/-- Modelled from the spec's words for claim C7 (a definition of the
parameter span following the claim text, for comparison with the code's
`FUNCTION_REGEX_captures`): the span runs from the first `\x7b` after NAME
up to the FIRST `\x7d` after it. -/
def scanToFirstClose : List Char → Option (List Char)
  | [] => none
  | c :: rest =>
    if c = '}' then some []
    else
      match scanToFirstClose rest with
      | some body => some (c :: body)
      | none => none

/-- Modelled from the spec's words for claim C7: match the marker at the
start of `cs`, taking the parameter span up to the first closing brace. -/
def claimSpanAt (cs : List Char) : Option (List Char × List Char) :=
  match dropLit markerIntro cs with
  | none => none
  | some cs1 =>
    match cs1.takeWhile isWordChar, cs1.dropWhile isWordChar with
    | [], _ => none
    | nm :: nms, '{' :: cs2 =>
      (match scanToFirstClose cs2 with
       | some body => some (nm :: nms, '{' :: (body ++ ['}']))
       | none => none)
    | _ :: _, _ => none

/-- Modelled from the spec's words for claim C7: scan left to right for
the first position where the first-closing-brace span matches. -/
def claimSpanAux : List Char → Option (List Char × List Char)
  | [] => none
  | c :: rest =>
    match claimSpanAt (c :: rest) with
    | some r => some r
    | none => claimSpanAux rest

/-- Modelled from the spec's words for claim C7: the first marker with the
first-closing-brace parameter span. -/
def claimParamSpan (s : String) : Option (String × String) :=
  match claimSpanAux s.data with
  | some (n, ps) => some (String.mk n, String.mk ps)
  | none => none

/-- Modelled from the spec's words for claim C7: the claim's NAME alphabet
`[A-Za-z0-9_]` (ASCII only), for comparison with the code's Unicode-aware
`\w` (`isWordChar`). -/
def specNameChar (c : Char) : Bool := c.isAlphanum || c = '_'

/-! Helper lemmas about the marker scanner. -/

/-- Dropping a literal from a string that starts with it succeeds. -/
theorem dropLit_self (p rest : List Char) : dropLit p (p ++ rest) = some rest := by
  induction p with
  | nil => rfl
  | cons c cs ih => simp [dropLit, ih]

/-- If dropping a literal succeeds, the input decomposes accordingly. -/
theorem dropLit_sound : ∀ (p cs r : List Char), dropLit p cs = some r → cs = p ++ r := by
  intro p
  induction p with
  | nil =>
    intro cs r h
    simp [dropLit] at h
    simp [h]
  | cons c cs ih =>
    intro ds r h
    cases ds with
    | nil => simp [dropLit] at h
    | cons d ds2 =>
      by_cases hdc : d = c
      · subst hdc
        simp only [dropLit, if_pos rfl] at h
        have := ih ds2 r h
        simp [this]
      · simp [dropLit, hdc] at h

/-- takeWhile/dropWhile on a list that is an all-true block followed by a
failing head. -/
theorem tdWhile_exact (p : Char → Bool) :
    ∀ (xs : List Char) (y : Char) (ys : List Char), (∀ c ∈ xs, p c = true) → p y = false →
      (xs ++ y :: ys).takeWhile p = xs ∧ (xs ++ y :: ys).dropWhile p = y :: ys := by
  intro xs
  induction xs with
  | nil =>
    intro y ys _ hy
    constructor
    · simp [List.takeWhile_cons, hy]
    · simp [List.dropWhile_cons, hy]
  | cons x xs ih =>
    intro y ys hall hy
    have hx : p x = true := hall x (by simp)
    have hrest := ih y ys (fun c hc => hall c (by simp [hc])) hy
    constructor
    · simp [List.takeWhile_cons, hx, hrest.1]
    · simp [List.dropWhile_cons, hx, hrest.2]

/-- Every element of `takeWhile p l` satisfies `p`. -/
theorem mem_takeWhile_p (p : Char → Bool) :
    ∀ (l : List Char) (c : Char), c ∈ l.takeWhile p → p c = true := by
  intro l
  induction l with
  | nil => intro c hc; simp [List.takeWhile] at hc
  | cons x xs ih =>
    intro c hc
    rw [List.takeWhile_cons] at hc
    cases hpx : p x with
    | true => rw [hpx] at hc; simp at hc
              rcases hc with h | h
              · subst h; exact hpx
              · exact ih c h
    | false => rw [hpx] at hc; simp at hc

/-- Scanning the lazy body succeeds on `body ++ "\x7d>" ++ tail` whenever
`body` holds no newline and no occurrence of the two-character stop `\x7d>`. -/
theorem scanBody_complete : ∀ (body tail : List Char), (∀ c ∈ body, c ≠ '\n') →
    hasSub ['}', '>'] body = false →
    scanBody (body ++ '}' :: '>' :: tail) = some (body, tail) := by
  intro body
  induction body with
  | nil =>
    intro tail _ _
    simp [scanBody]
  | cons c bs ih =>
    intro tail hnl hsub
    have hc_ne : c ≠ '\n' := hnl c (by simp)
    rw [hasSub] at hsub
    have hparts := Bool.or_eq_false_iff.mp hsub
    have hstart : startsWith ['}', '>'] (c :: bs) = false := hparts.1
    have hsub2 : hasSub ['}', '>'] bs = false := hparts.2
    rw [List.cons_append, scanBody]
    have hcond : ¬ (c = '}' ∧ (bs ++ '}' :: '>' :: tail).head? = some '>') := by
      rintro ⟨hc, hh⟩
      subst hc
      cases bs with
      | nil => simp at hh
      | cons b bs2 =>
        simp at hh
        subst hh
        simp [startsWith] at hstart
    rw [if_neg hcond, if_neg hc_ne, ih tail (fun x hx => hnl x (by simp [hx])) hsub2]

/-- Soundness of the lazy body scan: the input decomposes as the body, the
two-character stop, and the rest; the body holds no newline and no stop. -/
theorem scanBody_sound : ∀ (cs body rest : List Char), scanBody cs = some (body, rest) →
    cs = body ++ '}' :: '>' :: rest ∧ (∀ c ∈ body, c ≠ '\n') ∧
      hasSub ['}', '>'] body = false := by
  intro cs
  induction cs with
  | nil => intro body rest h; simp [scanBody] at h
  | cons c cs2 ih =>
    intro body rest h
    rw [scanBody] at h
    by_cases hcond : c = '}' ∧ cs2.head? = some '>'
    · rw [if_pos hcond] at h
      obtain ⟨hc, hh⟩ := hcond
      subst hc
      cases cs2 with
      | nil => simp at hh
      | cons d cs3 =>
        simp at hh
        subst hh
        simp at h
        obtain ⟨hb, hr⟩ := h
        subst hb; subst hr
        refine ⟨by simp, by simp, ?_⟩
        simp [hasSub]
    · rw [if_neg hcond] at h
      by_cases hnl : c = '\n'
      · rw [if_pos hnl] at h; simp at h
      · rw [if_neg hnl] at h
        cases hsc : scanBody cs2 with
        | none => rw [hsc] at h; simp at h
        | some p =>
          rw [hsc] at h
          obtain ⟨body2, rest2⟩ := p
          simp at h
          obtain ⟨hb, hr⟩ := h
          subst hb
          subst hr
          obtain ⟨ihA, ihB, ihC⟩ := ih body2 rest2 hsc
          subst ihA
          refine ⟨by simp, ?_, ?_⟩
          · intro x hx
            rcases List.mem_cons.mp hx with hx | hx
            · subst hx; exact hnl
            · exact ihB x hx
          · rw [hasSub]
            have hsw : startsWith ['}', '>'] (c :: body2) = false := by
              cases hcc : decide (c = '}') with
              | false => simp [startsWith]; intro hc; simp [hc] at hcc
              | true =>
                have hc : c = '}' := of_decide_eq_true hcc
                subst hc
                cases body2 with
                | nil => simp [startsWith]
                | cons b bs2 =>
                  cases hbb : decide (b = '>') with
                  | false =>
                    simp [startsWith]
                    intro hb2
                    simp [hb2] at hbb
                  | true =>
                    have hb2 : b = '>' := of_decide_eq_true hbb
                    subst hb2
                    exact absurd ⟨rfl, by simp⟩ hcond
            rw [hsw, ihC]
            rfl


/-- Completeness of `matchAt` on a well-formed marker at the start of the
input. -/
theorem matchAt_build (nm body tail : List Char)
    (hn : nm ≠ []) (hw : ∀ c ∈ nm, isWordChar c = true)
    (hnl : ∀ c ∈ body, c ≠ '\n') (hsub : hasSub ['}', '>'] body = false) :
    matchAt (markerIntro ++ (nm ++ '{' :: (body ++ '}' :: '>' :: tail))) =
      some (nm, '{' :: (body ++ ['}'])) := by
  have hbrace : isWordChar '{' = false := by decide
  have htd := tdWhile_exact isWordChar nm '{' (body ++ '}' :: '>' :: tail) hw hbrace
  rw [matchAt, dropLit_self]
  simp only [htd.1, htd.2]
  cases nm with
  | nil => exact absurd rfl hn
  | cons n0 nrest =>
    simp only
    rw [scanBody_complete body tail hnl hsub]

/-- Soundness of `matchAt`: a match decomposes the input into the fixed
intro, a nonempty word-character name, and a brace-delimited span whose
body holds no newline and no `\x7d>` stop. -/
theorem matchAt_sound (cs : List Char) (nm ps : List Char)
    (h : matchAt cs = some (nm, ps)) :
    ∃ body rest, cs = markerIntro ++ nm ++ ps ++ '>' :: rest ∧
      nm ≠ [] ∧ (∀ c ∈ nm, isWordChar c = true) ∧
      ps = '{' :: (body ++ ['}']) ∧ (∀ c ∈ body, c ≠ '\n') ∧
      hasSub ['}', '>'] body = false := by
  rw [matchAt] at h
  split at h
  · simp at h
  · rename_i cs1 hdl
    have hcs : cs = markerIntro ++ cs1 := dropLit_sound _ _ _ hdl
    split at h
    · simp at h
    · rename_i n0 nrest cs2 htk hdw
      split at h
      · rename_i body after hsc
        simp at h
        obtain ⟨hnm, hps⟩ := h
        obtain ⟨hdec, hnl, hsub⟩ := scanBody_sound cs2 body after hsc
        refine ⟨body, after, ?_, ?_, ?_, ?_, hnl, hsub⟩
        · rw [hcs, ← List.takeWhile_append_dropWhile (p := isWordChar) (l := cs1),
            htk, hdw, hdec, ← hnm, ← hps]
          simp
        · rw [← hnm]; simp
        · intro c hc
          rw [← hnm] at hc
          exact mem_takeWhile_p isWordChar cs1 c (htk ▸ hc)
        · rw [← hps]
      · simp at h
    · simp at h

/-- A successful `matchAt` at the head yields the same `findMarkerAux`
result (position zero is the leftmost position). -/
theorem findMarkerAux_of_matchAt (cs : List Char) (r : List Char × List Char)
    (h : matchAt cs = some r) : findMarkerAux cs = some r := by
  cases cs with
  | nil => rw [matchAt] at h; simp [dropLit, markerIntro] at h
  | cons c rest => rw [findMarkerAux, h]

/-- Soundness of the left-to-right scan: the result is a `matchAt` success
at some position, and `matchAt` fails at every earlier position. -/
theorem findMarkerAux_sound : ∀ (cs nm ps : List Char),
    findMarkerAux cs = some (nm, ps) →
    ∃ pre suf, cs = pre ++ suf ∧ matchAt suf = some (nm, ps) ∧
      ∀ j, j < pre.length → matchAt (cs.drop j) = none := by
  intro cs
  induction cs with
  | nil => intro nm ps h; simp [findMarkerAux] at h
  | cons c rest ih =>
    intro nm ps h
    rw [findMarkerAux] at h
    cases hm : matchAt (c :: rest) with
    | some r =>
      rw [hm] at h
      simp at h
      refine ⟨[], c :: rest, rfl, ?_, ?_⟩
      · rw [hm, h]
      · intro j hj; simp at hj
    | none =>
      rw [hm] at h
      obtain ⟨pre, suf, hdec, hmat, hnone⟩ := ih nm ps h
      refine ⟨c :: pre, suf, by simp [hdec], hmat, ?_⟩
      intro j hj
      cases j with
      | zero => exact hm
      | succ j2 =>
        simp only [List.drop_succ_cons]
        rw [hdec] at hnone ⊢
        exact hnone j2 (Nat.lt_of_succ_lt_succ hj)

/-- Unfolding helper: `String.mk` distributes over list append. -/
theorem str_mk_append (a b : List Char) : String.mk a ++ String.mk b = String.mk (a ++ b) := rfl

/-- Unfolding helper: the characters of `String.mk`. -/
theorem data_mk (l : List Char) : (String.mk l).data = l := rfl

/-! Claim C1. -/

/-- Claim C1, counterexample.  The claim asserts exact extraction for
EVERY valid JSON object P.  Take P to be the valid JSON object
`\x7b"a":"\x7d>"\x7d` (a one-field object whose string value is the two
characters `\x7d>`).  The lazy regex body stops at the first `\x7d`
followed by `>`, which here lies inside the string literal, so the
extracted parameter span is the truncated text `\x7b"a":"\x7d` — not P.
Hence the claim, as stated, is false. -/
theorem claim_C1_counterexample :
    Json.parse "\x7b\"a\":\"\x7d>\"\x7d" = some (Json.obj [("a", Json.str "\x7d>")]) ∧
    (FUNCTION_REGISTRY "calculate").isSome = true ∧
    FUNCTION_REGEX_captures "<function=calculate\x7b\"a\":\"\x7d>\"\x7d>" =
      some ("calculate", "\x7b\"a\":\"\x7d") ∧
    ("\x7b\"a\":\"\x7d" : String) ≠ "\x7b\"a\":\"\x7d>\"\x7d" :=
  ⟨rfl, rfl, rfl, by decide⟩

/-- Claim C1, amended.  For every marker text `<function=NAME\x7bP\x7d>`
where NAME is registered (nonempty, word characters) and the parameter
text is a valid JSON object whose interior contains no newline and no
occurrence of the two-character sequence `\x7d>`, the parser extracts
exactly NAME and exactly the parameter span unchanged — in particular
nested braces inside P are extracted in full, and re-matching the
rebuilt marker (the left-hand side itself) again yields the same NAME
and span. -/
theorem claim_C1_amended (name body : String) (p : Json) (hd : FunctionHandler)
    (hname : name ≠ "")
    (hword : ∀ c ∈ name.data, isWordChar c = true)
    (hreg : FUNCTION_REGISTRY name = some hd)
    (hjson : Json.parse ("\x7b" ++ body ++ "\x7d") = some p)
    (hnl : ∀ c ∈ body.data, c ≠ '\n')
    (hsub : hasSub ['}', '>'] body.data = false) :
    FUNCTION_REGEX_captures ("<function=" ++ name ++ "\x7b" ++ body ++ "\x7d>") =
      some (name, "\x7b" ++ body ++ "\x7d") := by
  obtain ⟨nl⟩ := name
  obtain ⟨bl⟩ := body
  have hn : nl ≠ [] := fun hEq => hname (by rw [hEq])
  have h1 : ("<function=" ++ String.mk nl ++ "\x7b" ++ String.mk bl ++ "\x7d>" : String)
      = String.mk (markerIntro ++ (nl ++ '{' :: (bl ++ '}' :: '>' :: []))) := by
    rw [show ("<function=" : String) = String.mk markerIntro from rfl,
        show ("\x7b" : String) = String.mk ['{'] from rfl,
        show ("\x7d>" : String) = String.mk ['}', '>'] from rfl,
        str_mk_append, str_mk_append, str_mk_append]
    exact congrArg String.mk (by simp)
  rw [h1]
  simp only [FUNCTION_REGEX_captures, data_mk]
  rw [findMarkerAux_of_matchAt _ _ (matchAt_build nl bl [] hn hword hnl hsub)]
  have h2 : ("\x7b" ++ String.mk bl ++ "\x7d" : String) = String.mk ('{' :: (bl ++ ['}'])) := by
    rw [show ("\x7b" : String) = String.mk ['{'] from rfl,
        show ("\x7d" : String) = String.mk ['}'] from rfl,
        str_mk_append, str_mk_append]
    exact congrArg String.mk (by simp)
  rw [h2]

/-- Claim C1 witness: a concrete registered marker whose parameters form a
nested JSON object; the span — nested braces included — is extracted in
full. -/
theorem claim_C1_witness :
    ("calculate" : String) ≠ "" ∧
    (∀ c ∈ ("calculate" : String).data, isWordChar c = true) ∧
    FUNCTION_REGISTRY "calculate" = some handle_calculate ∧
    Json.parse ("\x7b" ++ "\"a\":\x7b\"b\":1\x7d" ++ "\x7d") =
      some (Json.obj [("a", Json.obj [("b", Json.num 1)])]) ∧
    (∀ c ∈ ("\"a\":\x7b\"b\":1\x7d" : String).data, c ≠ '\n') ∧
    hasSub ['}', '>'] ("\"a\":\x7b\"b\":1\x7d" : String).data = false ∧
    FUNCTION_REGEX_captures ("<function=" ++ "calculate" ++ "\x7b" ++ "\"a\":\x7b\"b\":1\x7d" ++ "\x7d>") =
      some ("calculate", "\x7b" ++ "\"a\":\x7b\"b\":1\x7d" ++ "\x7d") :=
  ⟨by decide, by decide, rfl, rfl, by decide, by decide,
    claim_C1_amended "calculate" "\"a\":\x7b\"b\":1\x7d"
      (Json.obj [("a", Json.obj [("b", Json.num 1)])]) handle_calculate
      (by decide) (by decide) rfl rfl (by decide) (by decide)⟩

/-! Claim C7. -/

/-- Claim C7, counterexample.  Two parts of the claim fail on the code.
First, the span: the claim says the parameter span runs to the FIRST
`\x7d` after the opening brace, but on
`<function=calculate\x7b"a":\x7b"b":1\x7d\x7d>` the code
(`FUNCTION_REGEX_captures`) captures the full nested span — the lazy
quantifier must reach a `\x7d` that is immediately followed by `>` — while
the first-closing-brace span of the claim (`claimParamSpan`, built from
the claim's words) stops one character earlier.  Second, the NAME
alphabet: the claim says NAME is accepted exactly when it matches the
ASCII class `[A-Za-z0-9_]+` (`specNameChar`), but the regex crate's `\w`
is Unicode-aware, and the program accepts the marker `<function=café…>`
with NAME `café`, whose `é` lies outside `[A-Za-z0-9_]`. -/
theorem claim_C7_counterexample :
    FUNCTION_REGEX_captures "<function=calculate\x7b\"a\":\x7b\"b\":1\x7d\x7d>" =
      some ("calculate", "\x7b\"a\":\x7b\"b\":1\x7d\x7d") ∧
    claimParamSpan "<function=calculate\x7b\"a\":\x7b\"b\":1\x7d\x7d>" =
      some ("calculate", "\x7b\"a\":\x7b\"b\":1\x7d") ∧
    ("\x7b\"a\":\x7b\"b\":1\x7d\x7d" : String) ≠ "\x7b\"a\":\x7b\"b\":1\x7d" ∧
    FUNCTION_REGEX_captures "<function=café\x7b1\x7d>" = some ("café", "\x7b1\x7d") ∧
    specNameChar 'é' = false ∧
    isWordChar 'é' = true :=
  ⟨rfl, rfl, by decide, rfl, rfl, rfl⟩

/-- Claim C7, amended.  The parser detects at most one marker per message
(it returns at most one capture, the leftmost: `matchAt` fails at every
earlier position); NAME is a nonempty string of word characters, where the
word class is the regex crate's Unicode-aware `\w` (`isWordChar`) — a
strict superset of the claim's ASCII `[A-Za-z0-9_]`, accepting for
example NAME `café`; and the parameter span is the brace-delimited span
whose body is the shortest one terminated by a `\x7d` immediately
followed by `>` (not by the first bare `\x7d`), containing no newline. -/
theorem claim_C7_amended (s n ps : String)
    (h : FUNCTION_REGEX_captures s = some (n, ps)) :
    ∃ pre body rest : List Char,
      s.data = pre ++ (markerIntro ++ (n.data ++ (ps.data ++ '>' :: rest))) ∧
      n.data ≠ [] ∧ (∀ c ∈ n.data, isWordChar c = true) ∧
      ps.data = '{' :: (body ++ ['}']) ∧
      (∀ c ∈ body, c ≠ '\n') ∧ hasSub ['}', '>'] body = false ∧
      (∀ j, j < pre.length → matchAt (s.data.drop j) = none) := by
  rw [FUNCTION_REGEX_captures] at h
  cases hfm : findMarkerAux s.data with
  | none => rw [hfm] at h; simp at h
  | some r =>
    obtain ⟨n0, ps0⟩ := r
    rw [hfm] at h
    simp at h
    obtain ⟨hn, hps⟩ := h
    obtain ⟨pre, suf, hdec, hmat, hnone⟩ := findMarkerAux_sound s.data n0 ps0 hfm
    obtain ⟨body, rest, hsuf, hnm, hword, hps0, hnl, hsub⟩ :=
      matchAt_sound suf n0 ps0 hmat
    refine ⟨pre, body, rest, ?_, ?_, ?_, ?_, hnl, hsub, hnone⟩
    · rw [hdec, hsuf, ← hn, ← hps]
      simp [data_mk]
    · rw [← hn]; exact hnm
    · rw [← hn]; exact hword
    · rw [← hps]; exact hps0

/-- Claim C7 witness: the amended statement applied to a concrete message
whose marker carries the non-ASCII name `café`, exercising the
Unicode-aware word class. -/
theorem claim_C7_witness :
    ∃ pre body rest : List Char,
      ("x <function=café\x7b\"a\": 1\x7d> y" : String).data =
        pre ++ (markerIntro ++ (("café" : String).data ++
          (("\x7b\"a\": 1\x7d" : String).data ++ '>' :: rest))) ∧
      ("café" : String).data ≠ [] ∧
      (∀ c ∈ ("café" : String).data, isWordChar c = true) ∧
      ("\x7b\"a\": 1\x7d" : String).data = '{' :: (body ++ ['}']) ∧
      (∀ c ∈ body, c ≠ '\n') ∧ hasSub ['}', '>'] body = false ∧
      (∀ j, j < pre.length →
        matchAt (("x <function=café\x7b\"a\": 1\x7d> y" : String).data.drop j) = none) :=
  claim_C7_amended "x <function=café\x7b\"a\": 1\x7d> y" "café" "\x7b\"a\": 1\x7d" rfl

/-! Helper equations for one step of the dispatch loop. -/

/-- A prefix occurs at the head of its own append. -/
theorem startsWith_self_append (p rest : List Char) : startsWith p (p ++ rest) = true := by
  induction p with
  | nil => rfl
  | cons c cs ih => simp [startsWith, ih]

/-- Dispatch-loop step, no marker in the message: the content is printed
as the final answer and the remaining choices continue unchanged. -/
theorem handleChoices_cons_no_marker (recur : ChatResponse → Nat → Option (List Event × Nat))
    (oracle : Nat → ChatResponse) (k : Nat) (m : Message) (txt : Option String)
    (cs : List Choice) (h : FUNCTION_REGEX_captures m.content = none) :
    handleChoices recur oracle k ({ message := some m, text := txt } :: cs) =
      match handleChoices recur oracle k cs with
      | none => none
      | some (evs, k2) => some (Event.answered m.content :: evs, k2) := by
  simp only [handleChoices, h]

/-- Dispatch-loop step, marker with unparseable parameters: one diagnostic,
no handler, no request. -/
theorem handleChoices_cons_badparams (recur : ChatResponse → Nat → Option (List Event × Nat))
    (oracle : Nat → ChatResponse) (k : Nat) (m : Message) (txt : Option String)
    (cs : List Choice) (fname ps : String)
    (h1 : FUNCTION_REGEX_captures m.content = some (fname, ps))
    (h2 : Json.parse ps = none) :
    handleChoices recur oracle k ({ message := some m, text := txt } :: cs) =
      match handleChoices recur oracle k cs with
      | none => none
      | some (evs, k2) => some (Event.invalidParams ps :: evs, k2) := by
  simp only [handleChoices, h1, h2]

/-- Dispatch-loop step, marker whose name is not registered: one
diagnostic, no handler, no request. -/
theorem handleChoices_cons_notfound (recur : ChatResponse → Nat → Option (List Event × Nat))
    (oracle : Nat → ChatResponse) (k : Nat) (m : Message) (txt : Option String)
    (cs : List Choice) (fname ps : String) (p : Json)
    (h1 : FUNCTION_REGEX_captures m.content = some (fname, ps))
    (h2 : Json.parse ps = some p)
    (h3 : FUNCTION_REGISTRY fname = none) :
    handleChoices recur oracle k ({ message := some m, text := txt } :: cs) =
      match handleChoices recur oracle k cs with
      | none => none
      | some (evs, k2) => some (Event.notFound fname :: evs, k2) := by
  simp only [handleChoices, h1, h2, h3]

/-- Dispatch-loop step, marker resolved to a handler: the handler runs,
exactly one follow-up request is sent (built by `new_request_payload` from
the handler result), the oracle's response to it is processed recursively,
then the remaining choices continue. -/
theorem handleChoices_cons_dispatch (recur : ChatResponse → Nat → Option (List Event × Nat))
    (oracle : Nat → ChatResponse) (k : Nat) (m : Message) (txt : Option String)
    (cs : List Choice) (fname ps : String) (p : Json) (handler : FunctionHandler)
    (h1 : FUNCTION_REGEX_captures m.content = some (fname, ps))
    (h2 : Json.parse ps = some p)
    (h3 : FUNCTION_REGISTRY fname = some handler) :
    handleChoices recur oracle k ({ message := some m, text := txt } :: cs) =
      match recur (oracle k) (k + 1) with
      | none => none
      | some (evs1, k1) =>
        match handleChoices recur oracle k1 cs with
        | none => none
        | some (evs2, k2) =>
          some (Event.handlerCalled fname p ::
                Event.requestSent (new_request_payload (handler p)) ::
                (evs1 ++ evs2), k2) := by
  simp only [handleChoices, h1, h2, h3]

/-! Claim C2. -/

/-- Claim C2, confirmed.  For every response choice whose message content
contains no marker match, the dispatch loop invokes zero handlers and
issues zero follow-up requests for that choice (the step adds only an
`Event.answered` with the content, verbatim, and hands the same request
count `k` to the remaining choices). -/
theorem claim_C2 (recur : ChatResponse → Nat → Option (List Event × Nat))
    (oracle : Nat → ChatResponse) (k : Nat) (m : Message) (txt : Option String)
    (cs : List Choice) (h : FUNCTION_REGEX_captures m.content = none) :
    handleChoices recur oracle k ({ message := some m, text := txt } :: cs) =
      match handleChoices recur oracle k cs with
      | none => none
      | some (evs, k2) => some (Event.answered m.content :: evs, k2) :=
  handleChoices_cons_no_marker recur oracle k m txt cs h

/-- Claim C2 witness: a concrete marker-free message surfaces its content
verbatim with no handler call and no request. -/
theorem claim_C2_witness :
    FUNCTION_REGEX_captures "hello there" = none ∧
    handle_chat_response 1 (fun _ => { choices := [] })
      { choices := [{ message := some { role := "assistant", content := "hello there" }, text := none }] } 0 =
      some ([Event.answered "hello there"], 0) :=
  ⟨rfl,
    (claim_C2 (handle_chat_response 0 (fun _ => { choices := [] }))
      (fun _ => { choices := [] }) 0
      { role := "assistant", content := "hello there" } none [] rfl).trans rfl⟩

/-! Claim C3. -/

/-- Claim C3, confirmed.  For every successfully dispatched function call
(marker found, parameters parse, name registered) the loop emits exactly
one follow-up request before recursing: the request built by
`new_request_payload` from the handler result, whose message list is
exactly one message with role `user` and content equal to the handler's
returned text, and which carries no tool declarations (and hence not the
original system prompt either); the oracle's answer to it is then
processed by the same state machine (`recur`). -/
theorem claim_C3 (recur : ChatResponse → Nat → Option (List Event × Nat))
    (oracle : Nat → ChatResponse) (k : Nat) (m : Message) (txt : Option String)
    (cs : List Choice) (fname ps : String) (p : Json) (handler : FunctionHandler)
    (h1 : FUNCTION_REGEX_captures m.content = some (fname, ps))
    (h2 : Json.parse ps = some p)
    (h3 : FUNCTION_REGISTRY fname = some handler) :
    (handleChoices recur oracle k ({ message := some m, text := txt } :: cs) =
      match recur (oracle k) (k + 1) with
      | none => none
      | some (evs1, k1) =>
        match handleChoices recur oracle k1 cs with
        | none => none
        | some (evs2, k2) =>
          some (Event.handlerCalled fname p ::
                Event.requestSent (new_request_payload (handler p)) ::
                (evs1 ++ evs2), k2)) ∧
    (new_request_payload (handler p)).messages =
      [{ role := "user", content := handler p }] ∧
    (new_request_payload (handler p)).tools = [] :=
  ⟨handleChoices_cons_dispatch recur oracle k m txt cs fname ps p handler h1 h2 h3,
    rfl, rfl⟩

/-- Claim C3 witness: a concrete calculator marker with a stubbed
transport returning a marker-free second response; the run consists of the
handler call, exactly one follow-up request carrying the handler result as
the single user message with no tools, and the final answer of the
stubbed response. -/
theorem claim_C3_witness :
    handle_chat_response 2
      (fun _ => { choices := [{ message := some { role := "assistant", content := "done" }, text := none }] })
      { choices := [{ message := some { role := "assistant", content := "<function=calculate\x7b\"a\": 6, \"b\": 3, \"operation\": \"+\"\x7d>" }, text := none }] } 0 =
      some ([Event.handlerCalled "calculate"
               (Json.obj [("a", Json.num 6), ("b", Json.num 3), ("operation", Json.str "+")]),
             Event.requestSent
               { model := "llama-3.3-70b-versatile"
                 messages := [{ role := "user", content := "The result of 6 + 3 is 9" }]
                 tools := []
                 tool_choice := "auto" },
             Event.answered "done"], 1) :=
  ((claim_C3 (handle_chat_response 1
      (fun _ => { choices := [{ message := some { role := "assistant", content := "done" }, text := none }] }))
    (fun _ => { choices := [{ message := some { role := "assistant", content := "done" }, text := none }] })
    0
    { role := "assistant", content := "<function=calculate\x7b\"a\": 6, \"b\": 3, \"operation\": \"+\"\x7d>" }
    none []
    "calculate" "\x7b\"a\": 6, \"b\": 3, \"operation\": \"+\"\x7d"
    (Json.obj [("a", Json.num 6), ("b", Json.num 3), ("operation", Json.str "+")])
    handle_calculate rfl rfl rfl).1).trans rfl

/-! Claim C6. -/

/-- Claim C6, confirmed.  For every parsed marker, if the parameter span
does not parse as JSON, or parses but the name is not registered, the loop
emits exactly one diagnostic event for the choice (`invalidParams`
respectively `notFound`), invokes no handler, issues no follow-up request
(the request count `k` is unchanged), and treats the choice as terminal
(processing simply continues with the remaining choices). -/
theorem claim_C6 (recur : ChatResponse → Nat → Option (List Event × Nat))
    (oracle : Nat → ChatResponse) (k : Nat) (m : Message) (txt : Option String)
    (cs : List Choice) (fname ps : String)
    (h1 : FUNCTION_REGEX_captures m.content = some (fname, ps)) :
    (Json.parse ps = none →
      handleChoices recur oracle k ({ message := some m, text := txt } :: cs) =
        match handleChoices recur oracle k cs with
        | none => none
        | some (evs, k2) => some (Event.invalidParams ps :: evs, k2)) ∧
    (∀ p : Json, Json.parse ps = some p → FUNCTION_REGISTRY fname = none →
      handleChoices recur oracle k ({ message := some m, text := txt } :: cs) =
        match handleChoices recur oracle k cs with
        | none => none
        | some (evs, k2) => some (Event.notFound fname :: evs, k2)) :=
  ⟨fun h2 => handleChoices_cons_badparams recur oracle k m txt cs fname ps h1 h2,
   fun p h2 h3 => handleChoices_cons_notfound recur oracle k m txt cs fname ps p h1 h2 h3⟩

/-- Claim C6 witness: one concrete marker with unparseable parameters and
one concrete marker naming an unregistered function; each run is a single
diagnostic with no handler call and no request. -/
theorem claim_C6_witness :
    handle_chat_response 1 (fun _ => { choices := [] })
      { choices := [{ message := some { role := "assistant", content := "<function=calculate\x7bbad\x7d>" }, text := none }] } 0 =
      some ([Event.invalidParams "\x7bbad\x7d"], 0) ∧
    handle_chat_response 1 (fun _ => { choices := [] })
      { choices := [{ message := some { role := "assistant", content := "<function=foo\x7b\x7d>" }, text := none }] } 0 =
      some ([Event.notFound "foo"], 0) :=
  ⟨(((claim_C6 (handle_chat_response 0 (fun _ => { choices := [] }))
        (fun _ => { choices := [] }) 0
        { role := "assistant", content := "<function=calculate\x7bbad\x7d>" } none []
        "calculate" "\x7bbad\x7d" rfl).1) rfl).trans rfl,
   (((claim_C6 (handle_chat_response 0 (fun _ => { choices := [] }))
        (fun _ => { choices := [] }) 0
        { role := "assistant", content := "<function=foo\x7b\x7d>" } none []
        "foo" "\x7b\x7d" rfl).2) (Json.obj []) rfl rfl).trans rfl⟩

/-! Claim C4. -/

/-- Claim C4, confirmed.  The calculate handler on
`\x7ba:6, b:3, operation:"+"\x7d` returns text containing `9`; on
`\x7ba:5, b:0, operation:"/"\x7d` it returns the division-by-zero error
text (not a computed value); on `\x7ba:1, b:1, operation:"%"\x7d` it
returns the unknown-operation error text. -/
theorem claim_C4 :
    hasSub ("9").data
      (handle_calculate (Json.obj [("a", Json.num 6), ("b", Json.num 3), ("operation", Json.str "+")])).data = true ∧
    handle_calculate (Json.obj [("a", Json.num 6), ("b", Json.num 3), ("operation", Json.str "+")]) =
      "The result of 6 + 3 is 9" ∧
    handle_calculate (Json.obj [("a", Json.num 5), ("b", Json.num 0), ("operation", Json.str "/")]) =
      "Error: Division by zero" ∧
    handle_calculate (Json.obj [("a", Json.num 1), ("b", Json.num 1), ("operation", Json.str "%")]) =
      "Error: Unknown operation \x27%\x27" :=
  ⟨rfl, rfl, rfl, rfl⟩

/-! Claim C5. -/

/-- Claim C5, counterexample.  The claim says every error result begins
with `Error:`; but on a malformed parameter value (here the empty object,
whose required fields are absent) the handler returns the fixed text
`Invalid parameters for calculation`, which does not begin with
`Error:`. -/
theorem claim_C5_counterexample :
    handle_calculate (Json.obj []) = "Invalid parameters for calculation" ∧
    startsWith ("Error:").data (handle_calculate (Json.obj [])).data = false :=
  ⟨rfl, rfl⟩

/-- Claim C5, amended.  The handler is a total function (it returns
normally on every JSON parameter value), and each result is either an
`Error:`-prefixed error text (division by zero, unknown operation), the
fixed text `Invalid parameters for calculation` (a required field absent
or ill-typed — without the `Error:` prefix), or a success line built by
`calcOut`. -/
theorem claim_C5_amended (params : Json) :
    startsWith ("Error:").data (handle_calculate params).data = true ∨
    handle_calculate params = "Invalid parameters for calculation" ∨
    ∃ a b op r, (Json.get params "a").bind Json.as_f64 = some a ∧
      (Json.get params "b").bind Json.as_f64 = some b ∧
      (Json.get params "operation").bind Json.as_str = some op ∧
      handle_calculate params = calcOut a op b r := by
  cases ha : (Json.get params "a").bind Json.as_f64 with
  | none =>
    right; left
    simp only [handle_calculate, ha]
  | some a =>
    cases hb : (Json.get params "b").bind Json.as_f64 with
    | none =>
      right; left
      simp only [handle_calculate, ha, hb]
    | some b =>
      cases hop : (Json.get params "operation").bind Json.as_str with
      | none =>
        right; left
        simp only [handle_calculate, ha, hb, hop]
      | some op =>
        have hred : handle_calculate params =
            (if op = "+" then calcOut a op b (a + b)
             else if op = "-" then calcOut a op b (a - b)
             else if op = "*" then calcOut a op b (a * b)
             else if op = "/" then
               if b ≠ 0 then calcOut a op b (a / b)
               else "Error: Division by zero"
             else "Error: Unknown operation \x27" ++ op ++ "\x27") := by
          simp only [handle_calculate, ha, hb, hop]
        by_cases h1 : op = "+"
        · rw [if_pos h1] at hred
          exact Or.inr (Or.inr ⟨a, b, op, a + b, rfl, rfl, rfl, hred⟩)
        · rw [if_neg h1] at hred
          by_cases h2 : op = "-"
          · rw [if_pos h2] at hred
            exact Or.inr (Or.inr ⟨a, b, op, a - b, rfl, rfl, rfl, hred⟩)
          · rw [if_neg h2] at hred
            by_cases h3 : op = "*"
            · rw [if_pos h3] at hred
              exact Or.inr (Or.inr ⟨a, b, op, a * b, rfl, rfl, rfl, hred⟩)
            · rw [if_neg h3] at hred
              by_cases h4 : op = "/"
              · rw [if_pos h4] at hred
                by_cases h5 : b ≠ 0
                · rw [if_pos h5] at hred
                  exact Or.inr (Or.inr ⟨a, b, op, a / b, rfl, rfl, rfl, hred⟩)
                · rw [if_neg h5] at hred
                  left
                  rw [hred]
                  rfl
              · rw [if_neg h4] at hred
                left
                rw [hred]
                obtain ⟨opl⟩ := op
                show startsWith ("Error:").data
                  (("Error:").data ++ ((" Unknown operation \x27").data ++ (opl ++ ('\x27' :: [])))) = true
                exact startsWith_self_append _ _

/-! Claim C8. -/

/-- Claim C8, counterexample.  The claim calls the termination on a
missing `GROQ_API_KEY` a clean exit.  The source reads the variable with
`.expect("GROQ_API_KEY not set")`, and a failed `expect` is a Rust panic:
in the model the outcome is `ProcessEnd.panicked` with the explanatory
message, and it is not a clean exit. -/
theorem claim_C8_counterexample :
    startupApiKey (fun _ => none) =
      Except.error (ProcessEnd.panicked "GROQ_API_KEY not set") ∧
    (ProcessEnd.panicked "GROQ_API_KEY not set").isCleanExit = false :=
  ⟨rfl, rfl⟩

/-- Claim C8, amended.  If `GROQ_API_KEY` is absent at startup, the
process does not start a conversation: the credential check short-circuits
`main` with a panic (from `.expect`) carrying the explanatory message
`GROQ_API_KEY not set` — a panic-based abort, not a clean exit. -/
theorem claim_C8_amended (env : String → Option String)
    (h : env "GROQ_API_KEY" = none) :
    startupApiKey env = Except.error (ProcessEnd.panicked "GROQ_API_KEY not set") := by
  simp [startupApiKey, h]

/-- Claim C8 witness: the amended statement at the empty environment. -/
theorem claim_C8_witness :
    startupApiKey (fun _ => none) =
      Except.error (ProcessEnd.panicked "GROQ_API_KEY not set") :=
  claim_C8_amended (fun _ => none) rfl

/-! Claim C9. -/

/-- Claim C9, confirmed.  Whenever a message's content contains a marker
match, the events produced for that choice never include its content (or
any other part of the message) as a printed chatbot answer: the run for
the choice is exactly one diagnostic (`invalidParams` or `notFound`), or
exactly the handler call and the single follow-up request followed by the
events of the follow-up response — the text surrounding the marker is
discarded. -/
theorem claim_C9 (recur : ChatResponse → Nat → Option (List Event × Nat))
    (oracle : Nat → ChatResponse) (k : Nat) (m : Message) (txt : Option String)
    (cs : List Choice) (fname ps : String) (evs : List Event) (kf : Nat)
    (h1 : FUNCTION_REGEX_captures m.content = some (fname, ps))
    (h2 : handleChoices recur oracle k ({ message := some m, text := txt } :: cs) = some (evs, kf)) :
    (Json.parse ps = none ∧ ∃ evs2, handleChoices recur oracle k cs = some (evs2, kf) ∧
       evs = Event.invalidParams ps :: evs2) ∨
    (∃ p, Json.parse ps = some p ∧ FUNCTION_REGISTRY fname = none ∧
       ∃ evs2, handleChoices recur oracle k cs = some (evs2, kf) ∧
       evs = Event.notFound fname :: evs2) ∨
    (∃ p handler evs1 k1 evs2, Json.parse ps = some p ∧
       FUNCTION_REGISTRY fname = some handler ∧
       recur (oracle k) (k + 1) = some (evs1, k1) ∧
       handleChoices recur oracle k1 cs = some (evs2, kf) ∧
       evs = Event.handlerCalled fname p ::
             Event.requestSent (new_request_payload (handler p)) :: (evs1 ++ evs2)) := by
  cases hparse : Json.parse ps with
  | none =>
    rw [handleChoices_cons_badparams recur oracle k m txt cs fname ps h1 hparse] at h2
    cases htail : handleChoices recur oracle k cs with
    | none => rw [htail] at h2; simp at h2
    | some pr =>
      obtain ⟨evs2, k2⟩ := pr
      rw [htail] at h2
      simp at h2
      obtain ⟨hevs, hk⟩ := h2
      subst hevs; subst hk
      exact Or.inl ⟨rfl, evs2, rfl, rfl⟩
  | some p =>
    cases hreg : FUNCTION_REGISTRY fname with
    | none =>
      rw [handleChoices_cons_notfound recur oracle k m txt cs fname ps p h1 hparse hreg] at h2
      cases htail : handleChoices recur oracle k cs with
      | none => rw [htail] at h2; simp at h2
      | some pr =>
        obtain ⟨evs2, k2⟩ := pr
        rw [htail] at h2
        simp at h2
        obtain ⟨hevs, hk⟩ := h2
        subst hevs; subst hk
        exact Or.inr (Or.inl ⟨p, rfl, rfl, evs2, rfl, rfl⟩)
    | some handler =>
      rw [handleChoices_cons_dispatch recur oracle k m txt cs fname ps p handler h1 hparse hreg] at h2
      cases hrec : recur (oracle k) (k + 1) with
      | none => rw [hrec] at h2; simp at h2
      | some pr1 =>
        obtain ⟨evs1, k1⟩ := pr1
        rw [hrec] at h2
        simp only [] at h2
        cases htail : handleChoices recur oracle k1 cs with
        | none => rw [htail] at h2; simp at h2
        | some pr2 =>
          obtain ⟨evs2, k2⟩ := pr2
          rw [htail] at h2
          simp at h2
          obtain ⟨hevs, hk⟩ := h2
          subst hevs; subst hk
          exact Or.inr (Or.inr ⟨p, handler, evs1, k1, evs2, rfl, rfl, rfl, htail, rfl⟩)

/-- Claim C9 witness: the statement applied to a concrete message whose
content holds a marker with unparseable parameters surrounded by other
text; the run is the diagnostic alone — the surrounding text is never
printed. -/
theorem claim_C9_witness :
    (Json.parse "\x7bbad\x7d" = none ∧
      ∃ evs2, handleChoices (handle_chat_response 0 (fun _ => { choices := [] }))
        (fun _ => { choices := [] }) 0 [] = some (evs2, 0) ∧
        ([Event.invalidParams "\x7bbad\x7d"] : List Event) = Event.invalidParams "\x7bbad\x7d" :: evs2) ∨
    (∃ p, Json.parse "\x7bbad\x7d" = some p ∧ FUNCTION_REGISTRY "calculate" = none ∧
      ∃ evs2, handleChoices (handle_chat_response 0 (fun _ => { choices := [] }))
        (fun _ => { choices := [] }) 0 [] = some (evs2, 0) ∧
        ([Event.invalidParams "\x7bbad\x7d"] : List Event) = Event.notFound "calculate" :: evs2) ∨
    (∃ p handler evs1 k1 evs2, Json.parse "\x7bbad\x7d" = some p ∧
      FUNCTION_REGISTRY "calculate" = some handler ∧
      handle_chat_response 0 (fun _ => { choices := [] }) ((fun _ => ({ choices := [] } : ChatResponse)) 0) 1 = some (evs1, k1) ∧
      handleChoices (handle_chat_response 0 (fun _ => { choices := [] }))
        (fun _ => { choices := [] }) k1 [] = some (evs2, 0) ∧
      ([Event.invalidParams "\x7bbad\x7d"] : List Event) = Event.handlerCalled "calculate" p ::
        Event.requestSent (new_request_payload (handler p)) :: (evs1 ++ evs2)) :=
  claim_C9 (handle_chat_response 0 (fun _ => { choices := [] }))
    (fun _ => { choices := [] }) 0
    { role := "assistant", content := "before <function=calculate\x7bbad\x7d> after" } none []
    "calculate" "\x7bbad\x7d" [Event.invalidParams "\x7bbad\x7d"] 0 rfl rfl

/-! Claim C10. -/

/-- Claim C10, confirmed.  A choice (or message) JSON object lacking the
`content` field deserializes successfully with `content = ""` (the
`#[serde(default)]`), and the dispatch loop treats the empty content as a
marker-free final answer, printing the empty text, rather than failing. -/
theorem claim_C10 (fuel : Nat) (oracle : Nat → ChatResponse) :
    Message.fromJson (Json.obj [("role", Json.str "assistant")]) =
      some { role := "assistant", content := "" } ∧
    Choice.fromJson (Json.obj [("message", Json.obj [("role", Json.str "assistant")])]) =
      some { message := some { role := "assistant", content := "" }, text := none } ∧
    handle_chat_response (fuel + 1) oracle
      { choices := [{ message := some { role := "assistant", content := "" }, text := none }] } 0 =
      some ([Event.answered ""], 0) := by
  refine ⟨rfl, rfl, ?_⟩
  simp only [handle_chat_response]
  rw [handleChoices_cons_no_marker _ oracle 0 { role := "assistant", content := "" } none [] rfl]
  simp [handleChoices]
